import Mathlib

/-!
Verification of the Lead Intelligence API (`src/app.py`) against its
natural-language specification.

The HTTP layer in `src/app.py` is embedded directly.  The two engine
modules (`ml_engine.py`, `geo_engine.py`) are imported by `app.py` but are
not part of the source tree, so the pipeline internals they implement
(run_all_models, the churn model, the concentration calculator, ...) are
modelled from the spec; each such definition carries a doc comment saying
so.

Conventions of the shallow embedding:
* a Python dict result with optional keys becomes a structure with
  `Option` fields; `d.get(k, default)` becomes `field.getD default`;
* code that may raise becomes `Except String` (the string is `str(e)`);
* an endpoint returns `Except HTTPError Response`: `.error` models a
  raised `HTTPException`, `.ok` a returned JSON body;
* numbers are `ℚ` (the floats here are small decimal fractions and the
  arithmetic involved is exact);
* wall-clock timestamps are opaque `String` parameters.
-/

namespace LeadIntel

/-- Clamp a rational into the interval from lo to hi. -/
def clamp (lo hi x : ℚ) : ℚ := max lo (min hi x)

/-- Per-lead score record, the element type of `top_leads` and
`at_risk_leads` (spec section 3, LeadScoreResult). -/
structure LeadScoreResult where
  lead_id : ℕ
  score : ℚ
  priority_tier : String
  churn_label : String
  churn_probability : ℚ
  segment : String
deriving DecidableEq

/-- One recommendation row (spec section 3, Recommendation). -/
structure Recommendation where
  lead_id : ℕ
  action : String
  priority : ℕ
  rationale : String
deriving DecidableEq

/-- Summary block of an ML report (spec section 3, MLSummary). -/
structure MLSummary where
  total_leads : ℕ
  average_score : ℚ
  priority_distribution : List (String × ℕ)
  at_risk_count : ℕ
deriving DecidableEq

/-- The dict returned by `engine.run_all_models()` as consumed by
`app.py` via `.get(...)`: every key may be absent, hence `Option`
fields.  `status` is always present per spec section 6. -/
structure MLResults where
  status : String
  error : Option String
  summary : Option MLSummary
  top_leads : Option (List LeadScoreResult)
  at_risk_leads : Option (List LeadScoreResult)
  recommendations : Option (List Recommendation)
  timestamp : Option String
deriving DecidableEq

/-- A raised `fastapi.HTTPException` (status code and detail string). -/
structure HTTPError where
  status_code : ℕ
  detail : String
deriving DecidableEq

/-- Response body of `GET /api/v1/summary` (src/app.py lines 211-215).
`summary := none` models the Python default `{}` of
`results.get('summary', {})`. -/
structure SummaryResponse where
  summary : Option MLSummary
  timestamp : Option String
  status : String
deriving DecidableEq

/-- Response body of `GET /api/v1/top-leads/{limit}`
(src/app.py lines 248-253). -/
structure TopLeadsResponse where
  top_leads : List LeadScoreResult
  count : ℕ
  timestamp : Option String
  status : String
deriving DecidableEq

/-- Python list slicing `l[:n]` for an `int` n: nonnegative n takes the
first n elements; negative n drops the last -n elements. -/
def pyTake {α : Type} (l : List α) (n : ℤ) : List α :=
  l.take (if n < 0 then ((l.length : ℤ) + n).toNat else n.toNat)

/-- Embedding of `score_all_leads` (src/app.py lines 147-189).  The
`run` argument is the outcome of engine construction plus
`engine.run_all_models()`: `.error e` models a raised exception caught
by the bare `except Exception` (re-raised as HTTP 500), `.ok` a
returned dict.  A result dict with status 'failed' is turned into an
HTTP 500 whose detail is the result's error string (default 'ML
analysis failed'). -/
def score_all_leads (run : Except String MLResults) : Except HTTPError MLResults :=
  match run with
  | .error e => .error ⟨500, e⟩
  | .ok results =>
    if results.status = "failed" then
      .error ⟨500, results.error.getD "ML analysis failed"⟩
    else
      .ok results

/-- Embedding of `get_summary` (src/app.py lines 192-221): the result of
`run_all_models` is repackaged with `status := "success"` without any
check of `results.get('status')`. -/
def get_summary (run : Except String MLResults) : Except HTTPError SummaryResponse :=
  match run with
  | .error e => .error ⟨500, e⟩
  | .ok results => .ok ⟨results.summary, results.timestamp, "success"⟩

/-- Embedding of `get_top_leads` (src/app.py lines 224-259): `limit` is
checked against 100 before the try block (hence before `run` is even
looked at); then `results.get('top_leads', [])[:limit]` is returned
together with its length and `status := "success"`. -/
def get_top_leads (limit : ℤ) (run : Except String MLResults) :
    Except HTTPError TopLeadsResponse :=
  if 100 < limit then
    .error ⟨400, "Limit cannot exceed 100"⟩
  else
    match run with
    | .error e => .error ⟨500, e⟩
    | .ok results =>
      let tl := pyTake (results.top_leads.getD []) limit
      .ok ⟨tl, tl.length, results.timestamp, "success"⟩

/-- Response body of `GET /health` (src/app.py lines 126-140).  The
healthy branch populates `ml_engine` and `geo_engine`; the unhealthy
branch populates `error`. -/
structure HealthResponse where
  status : String
  timestamp : String
  database : String
  ml_engine : Option String
  geo_engine : Option String
  error : Option String
deriving DecidableEq

/-- Embedding of `health_check` (src/app.py lines 99-140).  `ml` is the
outcome of constructing the ML engine and calling `connect_db()` (an
exception anywhere in that prefix is `.error`), `geo` likewise for the
geo engine; any exception falls into the `except Exception` branch that
returns an unhealthy body instead of raising. -/
def health_check (ts : String) (ml geo : Except String Bool) : HealthResponse :=
  match ml with
  | .error e => ⟨"unhealthy", ts, "disconnected", none, none, some e⟩
  | .ok ml_status =>
    match geo with
    | .error e => ⟨"unhealthy", ts, "disconnected", none, none, some e⟩
    | .ok geo_status =>
      ⟨"healthy", ts,
       if ml_status && geo_status then "connected" else "disconnected",
       some (if ml_status then "operational" else "unavailable"),
       some (if geo_status then "operational" else "unavailable"),
       none⟩

/-! ## Spec-modelled lead-intelligence pipeline

`ml_engine.py` (class `AIMLModelsEngine`, method `run_all_models`) is
imported by `app.py` but is not in the source tree.  The definitions
below model it from the spec (sections 3, 4.2-4.7, 6).  Where the spec
leaves constants open (feature scaling windows, score weights) the
definitions fix documented values satisfying the spec's constraints
(normalized features in the unit interval, weights summing to 1). -/

/-- Modelled from the spec: the missing Lead snapshot row of
`ml_engine.py` (spec section 3, Lead); `recency_days` stands for the
staleness derived from `last_activity_at`, `activity_count` for the raw
activity counts. -/
structure Lead where
  id : ℕ
  status : String
  deal_value : ℚ
  engagement_score : ℚ
  recency_days : ℚ
  activity_count : ℚ
deriving DecidableEq

/-- Modelled from the spec: the missing derived feature vector of
`ml_engine.py` (spec section 3, LeadFeatures); all fields are normalized
into the unit interval. -/
structure LeadFeatures where
  recency : ℚ
  activity : ℚ
  deal_value_n : ℚ
  engagement : ℚ
  status_weight : ℚ
deriving DecidableEq

/-- Modelled from the spec: the status-weight feature of the missing
Feature Normalizer; the status enum is new/contacted/qualified/won/lost
(spec section 3), unknown statuses default like new. -/
def status_weight_of : String → ℚ
  | "won" => 1
  | "qualified" => 4/5
  | "contacted" => 3/5
  | "lost" => 0
  | _ => 2/5

/-- Modelled from the spec: the missing Feature Normalizer of
`ml_engine.py` (spec section 4.2), a pure function Lead to LeadFeatures
clamping every feature into the unit interval; 90 days is the
configured staleness window, 30 the activity cap, 100000 the deal-value
cap, 100 the engagement scale. -/
def normalize_features (l : Lead) : LeadFeatures :=
  ⟨clamp 0 1 (l.recency_days / 90),
   clamp 0 1 (l.activity_count / 30),
   clamp 0 1 (l.deal_value / 100000),
   clamp 0 1 (l.engagement_score / 100),
   clamp 0 1 (status_weight_of l.status)⟩

/-- Modelled from the spec: the missing Scoring Model of `ml_engine.py`
(spec section 4.3), a weighted sum of normalized features with fixed
weights summing to 1 (3/10 engagement, 1/5 activity, 1/5 deal value,
1/5 freshness, 1/10 status), scaled to the 0-100 range and clamped. -/
def scoring_model (f : LeadFeatures) : ℚ :=
  clamp 0 100 (100 * (3/10 * f.engagement + 1/5 * f.activity +
    1/5 * f.deal_value_n + 1/5 * (1 - f.recency) + 1/10 * f.status_weight))

/-- Modelled from the spec: the probability half of the missing Churn
Model of `ml_engine.py` (spec section 4.4), monotone in staleness and in
declining engagement, clamped into the unit interval. -/
def churn_probability_of (f : LeadFeatures) : ℚ :=
  clamp 0 1 (3/5 * f.recency + 2/5 * (1 - f.engagement))

/-- Modelled from the spec: the label half of the missing Churn Model of
`ml_engine.py` (spec sections 4.4 and 8): probability at least 0.7 is
high, at least 0.3 medium, otherwise low. -/
def churn_label_of (p : ℚ) : String :=
  if 7/10 ≤ p then "high" else if 3/10 ≤ p then "medium" else "low"

/-- Modelled from the spec: the priority-tier bucketing of the missing
`ml_engine.py` (spec section 3): score at least 75 is hot, at least 40
warm, otherwise cold. -/
def priority_tier_of (s : ℚ) : String :=
  if 75 ≤ s then "hot" else if 40 ≤ s then "warm" else "cold"

/-- Modelled from the spec: the missing Segmentation Model of
`ml_engine.py` (spec section 4.5): high score and low churn gives
champion, high score and high churn gives at-risk, low score and high
staleness gives dormant, everything else nurture. -/
def segment_of (s : ℚ) (label : String) (f : LeadFeatures) : String :=
  if 75 ≤ s ∧ label = "low" then "champion"
  else if 75 ≤ s ∧ label = "high" then "at-risk"
  else if s < 40 ∧ 9/10 ≤ f.recency then "dormant"
  else "nurture"

/-- Modelled from the spec: the per-lead composition of the missing
models 4.2-4.5 of `ml_engine.py`, a pure function of one Lead. -/
def score_lead (l : Lead) : LeadScoreResult :=
  let f := normalize_features l
  let s := scoring_model f
  let p := churn_probability_of f
  let lab := churn_label_of p
  ⟨l.id, s, priority_tier_of s, lab, p, segment_of s lab f⟩

/-- Insert an element into a list so that it lands before the first
element it compares le to (helper of the insertion sort used to model
the ranked views). -/
def insertRanked {α : Type} (le : α → α → Bool) (x : α) : List α → List α
  | [] => [x]
  | y :: ys => if le x y then x :: y :: ys else y :: insertRanked le x ys

/-- Insertion sort by a boolean comparison, used to model the sorted
views of the missing `ml_engine.py`. -/
def sortRanked {α : Type} (le : α → α → Bool) : List α → List α
  | [] => []
  | x :: xs => insertRanked le x (sortRanked le xs)

/-- Modelled from the spec: the ranking order of the missing ML Result
Aggregator (spec section 4.3 tie-break): score descending, ties by more
recent activity (smaller `recency_days`), then by id ascending. -/
def lead_rank_le (a b : Lead) : Bool :=
  let sa := scoring_model (normalize_features a)
  let sb := scoring_model (normalize_features b)
  if sa = sb then
    if a.recency_days = b.recency_days then a.id ≤ b.id
    else a.recency_days < b.recency_days
  else sb < sa

/-- Modelled from the spec: the at-risk ordering of the missing ML
Result Aggregator (spec section 4.7), churn probability descending. -/
def risk_rank_le (a b : LeadScoreResult) : Bool :=
  b.churn_probability ≤ a.churn_probability

/-- Modelled from the spec: the rule catalogue of the missing
Recommendation Model of `ml_engine.py` (spec section 4.6); several rules
may fire for one lead, each yielding one Recommendation with a numeric
priority. -/
def recs_for (r : LeadScoreResult) : List Recommendation :=
  (if r.segment = "at-risk" then
    [⟨r.lead_id, "Launch retention outreach", 3, "segment is at-risk"⟩] else []) ++
  (if r.priority_tier = "hot" ∧ r.churn_label = "low" then
    [⟨r.lead_id, "Contact immediately", 2, "hot lead with low churn"⟩] else []) ++
  (if r.segment = "dormant" then
    [⟨r.lead_id, "Move to drip campaign", 1, "segment is dormant"⟩] else [])

/-- Modelled from the spec: the global recommendation order of the
missing `ml_engine.py` (spec section 4.6), priority descending with ties
by lead id ascending. -/
def rec_rank_le (a b : Recommendation) : Bool :=
  if a.priority = b.priority then a.lead_id ≤ b.lead_id else b.priority < a.priority

/-- Modelled from the spec: the ranked `top_leads` view of the missing
ML Result Aggregator of `ml_engine.py` (spec section 4.7), every scored
lead sorted by the 4.3 tie-break. -/
def ml_results_list (snapshot : List Lead) : List LeadScoreResult :=
  (sortRanked lead_rank_le snapshot).map score_lead

/-- Modelled from the spec: the `at_risk_leads` view of the missing ML
Result Aggregator of `ml_engine.py` (spec section 4.7), the leads with
high churn label sorted by churn probability descending. -/
def ml_at_risk_list (snapshot : List Lead) : List LeadScoreResult :=
  sortRanked risk_rank_le
    ((ml_results_list snapshot).filter (fun r => r.churn_label == "high"))

/-- Modelled from the spec: the MLSummary computed by the missing ML
Result Aggregator of `ml_engine.py` (spec sections 3 and 8): the
average score is 0 for an empty snapshot, not a division error. -/
def ml_summary_of (snapshot : List Lead) : MLSummary :=
  let results := ml_results_list snapshot
  let n := snapshot.length
  ⟨n,
   if n = 0 then 0 else (results.map (·.score)).sum / n,
   [("hot", (results.filter (fun r => r.priority_tier == "hot")).length),
    ("warm", (results.filter (fun r => r.priority_tier == "warm")).length),
    ("cold", (results.filter (fun r => r.priority_tier == "cold")).length)],
   (ml_at_risk_list snapshot).length⟩

/-- Modelled from the spec: the missing
`AIMLModelsEngine.run_all_models` of `ml_engine.py` (spec sections 4.7
and 6, `run_lead_intelligence`): on a Repository failure the report is
status 'failed' with the error string and every other field absent; on
success it scores every lead of the snapshot, ranks them, filters the
at-risk view, computes the summary and the recommendations. -/
def run_all_models (ts : String) (src : Except String (List Lead)) : MLResults :=
  match src with
  | .error e => ⟨"failed", some e, none, none, none, none, none⟩
  | .ok snapshot =>
    ⟨"success", none,
     some (ml_summary_of snapshot),
     some (ml_results_list snapshot),
     some (ml_at_risk_list snapshot),
     some (sortRanked rec_rank_le ((ml_results_list snapshot).map recs_for).flatten),
     some ts⟩

/-! ## Spec-modelled concentration calculator

`geo_engine.py` is likewise absent from the source tree; the claims only
touch its Concentration Calculator (spec section 4.9). -/

/-- Modelled from the spec: the Herfindahl-style index of the missing
Concentration Calculator of `geo_engine.py` (spec sections 3 and 4.9),
the sum of the squared shares. -/
def concentration_index (shares : List ℚ) : ℚ :=
  (shares.map (fun s => s * s)).sum

/-- Modelled from the spec: the qualitative label of the missing
Concentration Calculator of `geo_engine.py` (spec section 4.9):
below 0.15 fragmented, between 0.15 and 0.25 moderate, above 0.25
concentrated. -/
def concentration_label (h : ℚ) : String :=
  if h < 3/20 then "fragmented" else if h ≤ 1/4 then "moderate" else "concentrated"

/-- Modelled from the spec: the missing Concentration Calculator of
`geo_engine.py` (spec section 4.9): the shares must sum to 1 within
tolerance 1e-6, otherwise the defensive check fails with
InvariantViolation; on valid input it returns the index and its label. -/
def concentration_calculator (shares : List ℚ) : Except String (ℚ × String) :=
  if |shares.sum - 1| ≤ 1/1000000 then
    let h := concentration_index shares
    .ok (h, concentration_label h)
  else
    .error "InvariantViolation: shares do not sum to 1"

/-! ## Helper lemmas -/

theorem le_clamp (lo hi x : ℚ) : lo ≤ clamp lo hi x := le_max_left _ _

theorem clamp_le (lo hi x : ℚ) (h : lo ≤ hi) : clamp lo hi x ≤ hi :=
  max_le h (min_le_left _ _)

theorem mem_insertRanked {α : Type} (le : α → α → Bool) (x a : α) (l : List α) :
    a ∈ insertRanked le x l ↔ a = x ∨ a ∈ l := by
  induction l with
  | nil => simp [insertRanked]
  | cons y ys ih =>
    simp only [insertRanked]
    split
    · simp
    · simp only [List.mem_cons, ih]
      tauto

theorem mem_sortRanked {α : Type} (le : α → α → Bool) (a : α) (l : List α) :
    a ∈ sortRanked le l ↔ a ∈ l := by
  induction l with
  | nil => simp [sortRanked]
  | cons x xs ih =>
    simp [sortRanked, mem_insertRanked, ih]

theorem score_lead_bounds (l : Lead) :
    0 ≤ (score_lead l).score ∧ (score_lead l).score ≤ 100 ∧
    0 ≤ (score_lead l).churn_probability ∧ (score_lead l).churn_probability ≤ 1 :=
  ⟨le_clamp _ _ _, clamp_le _ _ _ (by norm_num),
   le_clamp _ _ _, clamp_le _ _ _ (by norm_num)⟩

/-- A concrete failed pipeline result, as `run_all_models` produces on a
repository failure: status 'failed', populated error, all other fields
absent. -/
def failed_results : MLResults := ⟨"failed", some "DB down", none, none, none, none, none⟩

/-- A concrete successful pipeline result whose ranked `top_leads` view
holds three leads with scores 90, 60 and 30. -/
def demo_results : MLResults :=
  ⟨"success", none, none,
   some [⟨1, 90, "hot", "low", 1/10, "champion"⟩,
         ⟨2, 60, "warm", "medium", 1/2, "nurture"⟩,
         ⟨3, 30, "cold", "high", 4/5, "nurture"⟩],
   some [], some [], some "t"⟩

/-! ## Claims -/

/-- Claim C1, counterexample: the summary endpoint receives a pipeline
result with status 'failed' and a populated error string, yet returns a
body with status 'success', an empty summary and no error field at all
— a failed computation reported to the caller as empty-but-successful,
contradicting the claim that this never happens at any core entry
point. -/
theorem summary_hides_failure :
    failed_results.status = "failed" ∧ failed_results.error = some "DB down" ∧
    get_summary (.ok failed_results) = .ok ⟨none, none, "success"⟩ :=
  ⟨rfl, rfl, rfl⟩

/-- Claim C1 (amended): when the pipeline result carries status
'failed', `score_all_leads` reports the failure as an HTTP 500 carrying
the populated error string, but `get_summary` performs no status check
and returns the failed result as a status-'success' body whose summary
is whatever the failed result carried (empty on a pipeline failure). -/
theorem failure_reporting_per_endpoint (results : MLResults)
    (h : results.status = "failed") :
    score_all_leads (.ok results) = .error ⟨500, results.error.getD "ML analysis failed"⟩ ∧
    get_summary (.ok results) = .ok ⟨results.summary, results.timestamp, "success"⟩ := by
  constructor
  · simp [score_all_leads, h]
  · rfl

/-- Witness for C1 (amended) at the concrete failed result. -/
theorem failure_reporting_per_endpoint_witness :
    score_all_leads (.ok failed_results) = .error ⟨500, "DB down"⟩ ∧
    get_summary (.ok failed_results) = .ok ⟨none, none, "success"⟩ :=
  failure_reporting_per_endpoint failed_results rfl

/-- Claim C2: `get_top_leads` rejects every limit strictly above 100
with HTTP 400 before the pipeline outcome `run` is even inspected (the
rejection is the same for every `run`), and never issues that rejection
for a limit of at most 100. -/
theorem limit_check_rejects_over_100 (limit : ℤ) (run : Except String MLResults) :
    (100 < limit → get_top_leads limit run = .error ⟨400, "Limit cannot exceed 100"⟩) ∧
    (limit ≤ 100 → get_top_leads limit run ≠ .error ⟨400, "Limit cannot exceed 100"⟩) := by
  constructor
  · intro h
    simp [get_top_leads, h]
  · intro h
    have h2 : ¬ (100 : ℤ) < limit := by omega
    cases run with
    | error e => simp [get_top_leads, h2]
    | ok results => simp [get_top_leads, h2]

/-- Witness for C2 at limits 101 and 100. -/
theorem limit_check_rejects_over_100_witness :
    get_top_leads 101 (.error "down") = .error ⟨400, "Limit cannot exceed 100"⟩ ∧
    get_top_leads 100 (.error "down") ≠ .error ⟨400, "Limit cannot exceed 100"⟩ :=
  ⟨(limit_check_rejects_over_100 101 (.error "down")).1 (by norm_num),
   (limit_check_rejects_over_100 100 (.error "down")).2 (by norm_num)⟩

/-- Claim C4: on the empty snapshot the pipeline returns status
'success', empty ranked, at-risk and recommendation lists, a summary
with 0 total leads and average score 0 (no division error), and no
error string. -/
theorem empty_snapshot_success_report (ts : String) :
    (run_all_models ts (.ok [])).status = "success" ∧
    (run_all_models ts (.ok [])).error = none ∧
    (run_all_models ts (.ok [])).top_leads = some [] ∧
    (run_all_models ts (.ok [])).at_risk_leads = some [] ∧
    (run_all_models ts (.ok [])).recommendations = some [] ∧
    (run_all_models ts (.ok [])).summary =
      some ⟨0, 0, [("hot", 0), ("warm", 0), ("cold", 0)], 0⟩ :=
  ⟨rfl, rfl, rfl, rfl, rfl, rfl⟩

/-- Claim C5: the churn label is the fixed bucketing of the churn
probability: at least 0.7 gives 'high', at least 0.3 but below 0.7
gives 'medium', below 0.3 gives 'low'. -/
theorem churn_label_thresholds (p : ℚ) :
    (7/10 ≤ p → churn_label_of p = "high") ∧
    (3/10 ≤ p → p < 7/10 → churn_label_of p = "medium") ∧
    (p < 3/10 → churn_label_of p = "low") := by
  refine ⟨fun h => ?_, fun h1 h2 => ?_, fun h => ?_⟩
  · simp [churn_label_of, h]
  · rw [churn_label_of, if_neg (by linarith), if_pos h1]
  · rw [churn_label_of, if_neg (by linarith), if_neg (by linarith)]

/-- Witness for C5 at probabilities 0.75, 0.5 and 0.1. -/
theorem churn_label_thresholds_witness :
    churn_label_of (3/4) = "high" ∧
    churn_label_of (1/2) = "medium" ∧
    churn_label_of (1/10) = "low" :=
  ⟨(churn_label_thresholds (3/4)).1 (by norm_num),
   (churn_label_thresholds (1/2)).2.1 (by norm_num) (by norm_num),
   (churn_label_thresholds (1/10)).2.2 (by norm_num)⟩

/-- Claim C3: for a pipeline result whose ranked `top_leads` list is
sorted descending by score, `get_top_leads` with a limit between 0 and
100 returns exactly the first `limit` entries of that list (all of them
when the list is shorter), reports the length of the returned list as
`count`, and sets status 'success'. -/
theorem top_leads_truncation (results : MLResults) (limit : ℤ)
    (h0 : 0 ≤ limit) (h100 : limit ≤ 100)
    (hsorted : List.Chain' (fun a b => b.score ≤ a.score) (results.top_leads.getD [])) :
    get_top_leads limit (.ok results) =
      .ok ⟨(results.top_leads.getD []).take limit.toNat,
           ((results.top_leads.getD []).take limit.toNat).length,
           results.timestamp, "success"⟩ := by
  have h1 : ¬ (100 : ℤ) < limit := by omega
  have h2 : ¬ limit < 0 := by omega
  simp [get_top_leads, pyTake, h1, h2]

/-- Witness for C3, the spec scenario: three ranked leads with scores
90, 60 and 30, limit 2, returning the leads with scores 90 and 60 in
order with count 2. -/
theorem top_leads_truncation_witness :
    get_top_leads 2 (.ok demo_results) =
      .ok ⟨[⟨1, 90, "hot", "low", 1/10, "champion"⟩,
            ⟨2, 60, "warm", "medium", 1/2, "nurture"⟩],
           2, some "t", "success"⟩ :=
  top_leads_truncation demo_results 2 (by norm_num) (by norm_num)
    (by simp [demo_results]; norm_num)

/-- Claim C6: on shares summing to 1 the concentration calculator
accepts the input and returns the sum of the squared shares together
with its label, and the label follows the fixed thresholds: below 0.15
fragmented, from 0.15 to 0.25 moderate, above 0.25 concentrated. -/
theorem concentration_calculator_spec (shares : List ℚ) (h : shares.sum = 1) :
    concentration_calculator shares =
      .ok ((shares.map (fun s => s * s)).sum,
           concentration_label ((shares.map (fun s => s * s)).sum)) ∧
    (concentration_index shares < 3/20 →
      concentration_label (concentration_index shares) = "fragmented") ∧
    (3/20 ≤ concentration_index shares → concentration_index shares ≤ 1/4 →
      concentration_label (concentration_index shares) = "moderate") ∧
    (1/4 < concentration_index shares →
      concentration_label (concentration_index shares) = "concentrated") := by
  refine ⟨?_, fun hl => ?_, fun hl1 hl2 => ?_, fun hl => ?_⟩
  · simp [concentration_calculator, concentration_index, h]
  · simp [concentration_label, hl]
  · rw [concentration_label, if_neg (by linarith), if_pos hl2]
  · rw [concentration_label, if_neg (by linarith), if_neg (by linarith)]

/-- Witness for C6, the spec scenario: shares 0.8 and 0.2 give index
0.68 with label 'concentrated'. -/
theorem concentration_calculator_spec_witness :
    concentration_calculator [4/5, 1/5] = .ok (17/25, "concentrated") := by
  have h := (concentration_calculator_spec [4/5, 1/5] (by norm_num)).1
  norm_num [concentration_label] at h
  convert h using 2

/-- Claim C7: the concentration index is invariant under every
permutation of the shares, and strictly increases under a Pigou-Dalton
transfer moving positive mass from a strictly smaller share onto a
strictly larger one. -/
theorem concentration_perm_and_transfer :
    (∀ l l' : List ℚ, l.Perm l' → concentration_index l = concentration_index l') ∧
    (∀ (a b e : ℚ) (rest : List ℚ), a < b → 0 < e →
      concentration_index (a :: b :: rest) <
        concentration_index ((a - e) :: (b + e) :: rest)) := by
  constructor
  · intro l l' h
    exact (h.map (fun s => s * s)).sum_eq
  · intro a b e rest ha he
    simp only [concentration_index, List.map_cons, List.sum_cons]
    nlinarith [mul_pos he (sub_pos.2 ha), mul_pos he he]

/-- Witness for C7: swapping the shares 0.25 and 0.75 keeps the index,
and moving 0.125 from the smaller share 0.25 onto the larger share
0.75 strictly increases it. -/
theorem concentration_perm_and_transfer_witness :
    concentration_index [(1:ℚ)/4, 3/4] = concentration_index [(3:ℚ)/4, 1/4] ∧
    concentration_index [(1:ℚ)/4, 3/4] < concentration_index [1/4 - 1/8, 3/4 + 1/8] :=
  ⟨concentration_perm_and_transfer.1 _ _ (List.Perm.swap _ _ _),
   concentration_perm_and_transfer.2 (1/4) (3/4) (1/8) [] (by norm_num) (by norm_num)⟩

/-- Claim C9: the health check is total at its interface: whatever the
outcome of engine construction and the two connection tests (success
values or raised exceptions), it returns a structured body — status
'healthy' with the per-engine availability strings, or status
'unhealthy' with the exception's error string — and never propagates an
exception or HTTP error (its result type has no error channel at all). -/
theorem health_check_total (ts : String) (ml geo : Except String Bool) :
    (∃ m g, ml = .ok m ∧ geo = .ok g ∧
      health_check ts ml geo =
        ⟨"healthy", ts, if m && g then "connected" else "disconnected",
         some (if m then "operational" else "unavailable"),
         some (if g then "operational" else "unavailable"), none⟩) ∨
    (∃ e, health_check ts ml geo =
        ⟨"unhealthy", ts, "disconnected", none, none, some e⟩) := by
  cases ml with
  | error e => exact Or.inr ⟨e, rfl⟩
  | ok m =>
    cases geo with
    | error e => exact Or.inr ⟨e, rfl⟩
    | ok g => exact Or.inl ⟨m, g, rfl, rfl, rfl⟩

/-- Claim C10: `get_top_leads` applies no lower bound to the limit:
every limit of at most 100 is answered with a 'success' body holding
the Python slice of the ranked list; limit 0 yields the empty list with
count 0, and a negative limit -k yields the ranked list with its last k
elements removed (Python slice semantics), not a rejection. -/
theorem top_leads_no_lower_bound (results : MLResults) :
    (∀ limit : ℤ, limit ≤ 100 →
      get_top_leads limit (.ok results) =
        .ok ⟨pyTake (results.top_leads.getD []) limit,
             (pyTake (results.top_leads.getD []) limit).length,
             results.timestamp, "success"⟩) ∧
    (get_top_leads 0 (.ok results) = .ok ⟨[], 0, results.timestamp, "success"⟩) ∧
    (∀ k : ℕ, 0 < k →
      get_top_leads (-(k : ℤ)) (.ok results) =
        .ok ⟨(results.top_leads.getD []).take ((results.top_leads.getD []).length - k),
             ((results.top_leads.getD []).take ((results.top_leads.getD []).length - k)).length,
             results.timestamp, "success"⟩) := by
  refine ⟨fun limit h => ?_, ?_, fun k hk => ?_⟩
  · simp [get_top_leads, show ¬ (100 : ℤ) < limit from by omega]
  · simp [get_top_leads, pyTake, show ¬ (100 : ℤ) < 0 from by norm_num]
  · have h1 : ¬ (100 : ℤ) < -(k : ℤ) := by omega
    have h2 : -(k : ℤ) < 0 := by omega
    have h3 : (((results.top_leads.getD []).length : ℤ) + -(k : ℤ)).toNat =
        (results.top_leads.getD []).length - k := by omega
    simp [get_top_leads, pyTake, h1, h2, h3]

/-- Witness for C10 on the three-lead ranked list: limit 0 returns the
empty list with count 0, and limit -1 returns the first two leads
(the list with its last element removed). -/
theorem top_leads_no_lower_bound_witness :
    get_top_leads 0 (.ok demo_results) = .ok ⟨[], 0, some "t", "success"⟩ ∧
    get_top_leads (-1) (.ok demo_results) =
      .ok ⟨[⟨1, 90, "hot", "low", 1/10, "champion"⟩,
            ⟨2, 60, "warm", "medium", 1/2, "nurture"⟩],
           2, some "t", "success"⟩ :=
  ⟨(top_leads_no_lower_bound demo_results).2.1,
   (top_leads_no_lower_bound demo_results).2.2 1 (by norm_num)⟩

/-- Claim C8: every lead appearing in a lead-intelligence report (in
the ranked `top_leads` view or the `at_risk_leads` view) has its score
in the interval from 0 to 100 and its churn probability in the unit
interval — both are clamped weighted sums. -/
theorem report_score_bounds (ts : String) (src : Except String (List Lead))
    (r : LeadScoreResult)
    (hr : r ∈ (run_all_models ts src).top_leads.getD [] ++
              (run_all_models ts src).at_risk_leads.getD []) :
    0 ≤ r.score ∧ r.score ≤ 100 ∧
    0 ≤ r.churn_probability ∧ r.churn_probability ≤ 1 := by
  obtain ⟨l, rfl⟩ : ∃ l : Lead, r = score_lead l := by
    cases src with
    | error e => simp [run_all_models] at hr
    | ok snapshot =>
      have hres : r ∈ ml_results_list snapshot → ∃ l : Lead, r = score_lead l := by
        intro h
        rw [ml_results_list] at h
        obtain ⟨l, _, hl⟩ := List.mem_map.mp h
        exact ⟨l, hl.symm⟩
      rw [List.mem_append] at hr
      cases hr with
      | inl h => exact hres (by simpa [run_all_models] using h)
      | inr h =>
        have h2 : r ∈ ml_at_risk_list snapshot := by simpa [run_all_models] using h
        rw [ml_at_risk_list, mem_sortRanked] at h2
        exact hres (List.mem_filter.mp h2).1
  exact score_lead_bounds l

/-- Witness for C8: the single lead of a one-lead snapshot appears in
the report and its score and churn probability are in bounds. -/
theorem report_score_bounds_witness :
    0 ≤ (score_lead ⟨1, "new", 1000, 50, 10, 5⟩).score ∧
    (score_lead ⟨1, "new", 1000, 50, 10, 5⟩).score ≤ 100 ∧
    0 ≤ (score_lead ⟨1, "new", 1000, 50, 10, 5⟩).churn_probability ∧
    (score_lead ⟨1, "new", 1000, 50, 10, 5⟩).churn_probability ≤ 1 :=
  report_score_bounds "t" (.ok [⟨1, "new", 1000, 50, 10, 5⟩])
    (score_lead ⟨1, "new", 1000, 50, 10, 5⟩)
    (by simp [run_all_models, ml_results_list, sortRanked, insertRanked])

end LeadIntel
